import Mathlib

/-!
Shallow embedding of the stereo-panner head-tracking control program
(`src/main.rs`).  Floating-point (`f64`) arithmetic is modelled over `ℚ`
(exact rationals); the one genuinely irrational operation, `f64::sqrt` in
the reverb curve, is modelled with `Real.sqrt` over `ℝ`.  Wall-clock
instants are modelled as natural numbers of milliseconds.
-/

namespace StereoPanner

/-- `SMOOTHING_FACTOR` from main.rs: higher = smoother but more latency. -/
def SMOOTHING_FACTOR : ℚ := 0.65

/-- `UPDATE_RATE_MS` from main.rs: min time between updates (ms). -/
def UPDATE_RATE_MS : ℕ := 20

/-- `CHANGE_THRESHOLD` from main.rs: only send command if angle changes by this many degrees. -/
def CHANGE_THRESHOLD : ℚ := 0.5

/-- `DEFAULT_RADIUS` from main.rs. -/
def DEFAULT_RADIUS : ℚ := 1.5

/-- `MIN_RADIUS` from main.rs. -/
def MIN_RADIUS : ℚ := 0.1

/-- `MAX_RADIUS` from main.rs. -/
def MAX_RADIUS : ℚ := 10.0

/-- `RADIUS_STEP` from main.rs. -/
def RADIUS_STEP : ℚ := 0.1

/-- `MIN_REVERB` from main.rs (closest). -/
def MIN_REVERB : ℚ := 0.05

/-- `MAX_REVERB` from main.rs (farthest). -/
def MAX_REVERB : ℚ := 0.60

/-- `FRONT_LEFT_ANGLE` from main.rs. -/
def FRONT_LEFT_ANGLE : ℚ := 45.0

/-- `FRONT_RIGHT_ANGLE` from main.rs. -/
def FRONT_RIGHT_ANGLE : ℚ := -45.0

/-- `BACK_LEFT_ANGLE` from main.rs. -/
def BACK_LEFT_ANGLE : ℚ := 135.0

/-- `BACK_RIGHT_ANGLE` from main.rs. -/
def BACK_RIGHT_ANGLE : ℚ := -135.0

/-- `DEFAULT_WIDTH` from main.rs (100% = full separation). -/
def DEFAULT_WIDTH : ℚ := 1.0

/-- `MIN_WIDTH` from main.rs. -/
def MIN_WIDTH : ℚ := 0.3

/-- `MAX_WIDTH` from main.rs. -/
def MAX_WIDTH : ℚ := 1.5

/-- `WIDTH_STEP` from main.rs. -/
def WIDTH_STEP : ℚ := 0.1

/-- Rust `f64::clamp(lo, hi)`: returns `lo` if below, `hi` if above, else the value. -/
def clamp (x lo hi : ℚ) : ℚ :=
  if x < lo then lo else if x > hi then hi else x

/-- `enum SpeakerMode` from main.rs. -/
inductive SpeakerMode
  | Front
  | Back
deriving DecidableEq

/-- `SpeakerMode::base_angles` from main.rs: note `Front` returns the
`BACK_*` constants and `Back` returns the `FRONT_*` constants, exactly as in
the source. -/
def SpeakerMode.base_angles : SpeakerMode → ℚ × ℚ
  | .Front => (BACK_LEFT_ANGLE, BACK_RIGHT_ANGLE)
  | .Back  => (FRONT_LEFT_ANGLE, FRONT_RIGHT_ANGLE)

/-- `struct SmoothedState` from main.rs. -/
structure SmoothedState where
  yaw : ℚ
  pitch : ℚ
  roll : ℚ
deriving DecidableEq

/-- `SmoothedState::new` from main.rs. -/
def SmoothedState.new : SmoothedState := ⟨0, 0, 0⟩

/-- `SmoothedState::update` from main.rs: exponential smoothing of all
three orientation fields. -/
def SmoothedState.update (s : SmoothedState) (raw_yaw raw_pitch raw_roll : ℚ) :
    SmoothedState :=
  { yaw   := SMOOTHING_FACTOR * s.yaw   + (1 - SMOOTHING_FACTOR) * raw_yaw
    pitch := SMOOTHING_FACTOR * s.pitch + (1 - SMOOTHING_FACTOR) * raw_pitch
    roll  := SMOOTHING_FACTOR * s.roll  + (1 - SMOOTHING_FACTOR) * raw_roll }

/-- `struct SpatialState` from main.rs.  The reverb wet gain involves
`f64::sqrt`, modelled with `Real.sqrt`, so that one field lives in `ℝ`. -/
structure SpatialState where
  left_az : ℚ
  right_az : ℚ
  elevation : ℚ
  radius : ℚ
  gain : ℚ
  reverb_gain : ℝ

/-- `SpatialState::from_head_tracking` from main.rs: the pure geometry
transform from smoothed orientation and settings to speaker parameters. -/
noncomputable def SpatialState.from_head_tracking (yaw pitch radius : ℚ)
    (mode : SpeakerMode) (reverb_enabled : Bool) (width : ℚ) : SpatialState :=
  let lr := mode.base_angles
  let left_base_scaled := lr.1 * width
  let right_base_scaled := lr.2 * width
  let left_az := left_base_scaled - yaw
  let right_az := right_base_scaled - yaw
  let elevation := -pitch
  let gain := clamp (1 / radius) 0.1 2.0
  let reverb_gain : ℝ :=
    if reverb_enabled then
      let normalized := clamp ((radius - MIN_RADIUS) / (MAX_RADIUS - MIN_RADIUS)) 0.0 1.0
      (MIN_REVERB : ℝ) + Real.sqrt (normalized : ℝ) * ((MAX_REVERB : ℝ) - (MIN_REVERB : ℝ))
    else
      0.0
  ⟨left_az, right_az, elevation, radius, gain, reverb_gain⟩

/-- The change gate of `run_main_loop` (main.rs lines 564-568): dispatch iff
the yaw or pitch delta exceeds `CHANGE_THRESHOLD`, the radius delta exceeds
`0.01`, or a forced update is pending. -/
def should_dispatch (smoothed_yaw smoothed_pitch current_radius
    last_sent_yaw last_sent_pitch last_sent_radius : ℚ) (force_update : Bool) : Bool :=
  let yaw_changed := decide (|smoothed_yaw - last_sent_yaw| > CHANGE_THRESHOLD)
  let pitch_changed := decide (|smoothed_pitch - last_sent_pitch| > CHANGE_THRESHOLD)
  let radius_changed := decide (|current_radius - last_sent_radius| > 0.01)
  yaw_changed || pitch_changed || radius_changed || force_update

/-- `enum KeyAction` from main.rs. -/
inductive KeyAction
  | Quit
  | Changed
  | None
deriving DecidableEq

/-- The key codes distinguished by `handle_key_event` in main.rs
(q/Q/Esc/ctrl-c all collapse to `QuitKey`; any unmapped key is `Other`). -/
inductive KeyCode
  | QuitKey
  | Up
  | Down
  | Left
  | Right
  | CharW
  | CharS
  | CharR
  | Other
deriving DecidableEq

/-- The four operator-adjustable values mutated by `handle_key_event`
(kept as four separate locals in `run_main_loop` in the source). -/
structure Settings where
  radius : ℚ
  width : ℚ
  mode : SpeakerMode
  reverb_enabled : Bool
deriving DecidableEq

/-- `handle_key_event` from main.rs, acting on the four settings values. -/
def handle_key_event (key : KeyCode) (s : Settings) : Settings × KeyAction :=
  match key with
  | .QuitKey => (s, .Quit)
  | .Up => ({ s with radius := min (s.radius + RADIUS_STEP) MAX_RADIUS }, .Changed)
  | .Down => ({ s with radius := max (s.radius - RADIUS_STEP) MIN_RADIUS }, .Changed)
  | .Right => ({ s with width := min (s.width + WIDTH_STEP) MAX_WIDTH }, .Changed)
  | .Left => ({ s with width := max (s.width - WIDTH_STEP) MIN_WIDTH }, .Changed)
  | .CharW =>
    if s.mode ≠ .Front then ({ s with mode := .Front }, .Changed) else (s, .None)
  | .CharS =>
    if s.mode ≠ .Back then ({ s with mode := .Back }, .Changed) else (s, .None)
  | .CharR => ({ s with reverb_enabled := !s.reverb_enabled }, .Changed)
  | .Other => (s, .None)

/-- Exact value of Rust `f64::MAX` = (2 - 2^-52)·2^1023, as a rational.
Used in `run_main_loop` as the "never sent" sentinel of the dispatch memory. -/
def f64_MAX : ℚ := (2 ^ 53 - 1) * 2 ^ 971

/-- The initial values of the four operator-adjustable locals of
`run_main_loop`: `DEFAULT_RADIUS`, `DEFAULT_WIDTH`, `SpeakerMode::Front`,
reverb off. -/
def default_settings : Settings := ⟨DEFAULT_RADIUS, DEFAULT_WIDTH, .Front, false⟩

/-- The mutable state owned by `run_main_loop` in main.rs (display-only
counters such as fps and the latency history are omitted; instants are in
milliseconds). -/
structure LoopState where
  smoothed : SmoothedState
  cached_node_id : Option ℕ
  last_node_search : ℕ
  last_update_time : ℕ
  packet_count : ℕ
  last_sent_yaw : ℚ
  last_sent_pitch : ℚ
  last_sent_radius : ℚ
  settings : Settings
  force_update : Bool
deriving DecidableEq

/-- The state of `run_main_loop` right before its `loop`: dispatch memory
at the `f64::MAX` sentinel, defaults for the settings, no cached endpoint,
both instants at the start time. -/
def initial_state (start : ℕ) : LoopState :=
  { smoothed := SmoothedState.new
    cached_node_id := none
    last_node_search := start
    last_update_time := start
    packet_count := 0
    last_sent_yaw := f64_MAX
    last_sent_pitch := f64_MAX
    last_sent_radius := f64_MAX
    settings := default_settings
    force_update := false }

/-- One UDP receive result in `run_main_loop`: a valid 48-byte packet
carrying six doubles, a packet of any other size, or a timeout/would-block. -/
inductive PacketIn
  | valid (x y z yaw pitch roll : ℚ)
  | badSize
  | timeout
deriving DecidableEq

/-- The external inputs consumed by one iteration of the loop: at most one
keyboard event, the current instant (ms), what `find_spatializer_node` would
return if invoked this iteration, and the UDP receive result. -/
structure TickInput where
  key : Option KeyCode
  now : ℕ
  found : Option ℕ
  packet : PacketIn
deriving DecidableEq

/-- The observable outcome of one loop iteration: the new state, whether
the loop broke out, whether `find_spatializer_node` was invoked, whether the
downstream work (geometry transform, gate, render) ran, and whether
`update_pipewire` was called. -/
structure TickResult where
  state : LoopState
  quit : Bool
  searched : Bool
  evaluated : Bool
  dispatched : Bool
deriving DecidableEq

/-- Step 1 of the loop body: drain one keyboard event; `Quit` breaks,
`Changed` sets the force-update flag. -/
def key_stage (s : LoopState) (key : Option KeyCode) : LoopState × Bool :=
  match key with
  | none => (s, false)
  | some k =>
    match handle_key_event k s.settings with
    | (_, .Quit) => (s, true)
    | (st, .Changed) => ({ s with settings := st, force_update := true }, false)
    | (st, .None) => ({ s with settings := st }, false)

/-- Step 2 of the loop body: search for the node id if none is cached and
`last_node_search.elapsed().as_secs() > 2` (whole elapsed seconds). -/
def discovery_stage (s : LoopState) (now : ℕ) (found : Option ℕ) :
    LoopState × Bool :=
  if s.cached_node_id = none ∧ (now - s.last_node_search) / 1000 > 2 then
    ({ s with cached_node_id := found, last_node_search := now }, true)
  else
    (s, false)

/-- Step 5 of the loop body: if a node id is cached, evaluate the change
gate and on a positive decision call `update_pipewire` and overwrite the
dispatch memory with the just-used yaw/pitch/radius. -/
def dispatch_stage (s : LoopState) : LoopState × Bool :=
  match s.cached_node_id with
  | some _ =>
    if should_dispatch s.smoothed.yaw s.smoothed.pitch s.settings.radius
        s.last_sent_yaw s.last_sent_pitch s.last_sent_radius s.force_update then
      ({ s with
          last_sent_yaw := s.smoothed.yaw
          last_sent_pitch := s.smoothed.pitch
          last_sent_radius := s.settings.radius }, true)
    else
      (s, false)
  | none => (s, false)

/-- Steps 3-7 of the loop body: handle the UDP receive result.  A valid
packet always updates the smoothing filter; if less than `UPDATE_RATE_MS`
has elapsed since the last processed tick and no force-update is pending,
everything downstream is skipped (`continue`); otherwise the geometry
transform runs, the dispatch stage runs, the force flag is cleared and
`last_update_time` is reset.  Returns (state, evaluated, dispatched). -/
def packet_stage (s : LoopState) (now : ℕ) (p : PacketIn) :
    LoopState × Bool × Bool :=
  match p with
  | .valid _ _ _ raw_yaw raw_pitch raw_roll =>
    let s1 := { s with
        packet_count := s.packet_count + 1
        smoothed := s.smoothed.update raw_yaw raw_pitch raw_roll }
    if now - s.last_update_time < UPDATE_RATE_MS ∧ s.force_update = false then
      (s1, false, false)
    else
      let sd := dispatch_stage s1
      ({ sd.1 with force_update := false, last_update_time := now }, true, sd.2)
  | .badSize => (s, false, false)
  | .timeout => (s, false, false)

/-- One full iteration of `run_main_loop`'s `loop`, in source order:
keyboard, discovery, packet. -/
def tick (s : LoopState) (inp : TickInput) : TickResult :=
  let k := key_stage s inp.key
  if k.2 then ⟨k.1, true, false, false, false⟩
  else
    let d := discovery_stage k.1 inp.now inp.found
    let p := packet_stage d.1 inp.now inp.packet
    ⟨p.1, false, d.2, p.2.1, p.2.2⟩

/-- Run the loop over a finite input trace (stopping on quit). -/
def run_ticks (s : LoopState) : List TickInput → LoopState
  | [] => s
  | inp :: rest =>
    let r := tick s inp
    if r.quit then r.state else run_ticks r.state rest

/-- The instants at which the downstream work ran along an input trace. -/
def eval_times (s : LoopState) : List TickInput → List ℕ
  | [] => []
  | inp :: rest =>
    let r := tick s inp
    if r.quit then []
    else if r.evaluated then inp.now :: eval_times r.state rest
    else eval_times r.state rest

/-- `apply` a finite sequence of keyboard events to the settings, as the
loop's step 1 does across iterations. -/
def apply_key_events (s : Settings) (keys : List KeyCode) : Settings :=
  keys.foldl (fun st k => (handle_key_event k st).1) s

/-! ## Theorems -/

/-- A 0.65/0.35 mix of two rationals lies between them. -/
lemma convex_mix_bounds (e r : ℚ) :
    min e r ≤ 0.65 * e + 0.35 * r ∧ 0.65 * e + 0.35 * r ≤ max e r := by
  rcases le_total e r with h | h
  · rw [min_eq_left h, max_eq_right h]
    constructor <;> linarith
  · rw [min_eq_right h, max_eq_left h]
    constructor <;> linarith

/-- The smoothing coefficient and its complement, in the claimed form. -/
lemma smoothing_mix (e r : ℚ) :
    SMOOTHING_FACTOR * e + (1 - SMOOTHING_FACTOR) * r = 0.65 * e + 0.35 * r := by
  norm_num [SMOOTHING_FACTOR]

/-- Claim C2: `SmoothedState::update` sets each of yaw, pitch and roll to
`0.65·previous + 0.35·raw`, and each result lies between the previous
estimate and the raw input (convex combination, no overshoot). -/
theorem smoothed_update_convex (s : SmoothedState) (ry rp rr : ℚ) :
    (s.update ry rp rr).yaw = 0.65 * s.yaw + 0.35 * ry ∧
    (s.update ry rp rr).pitch = 0.65 * s.pitch + 0.35 * rp ∧
    (s.update ry rp rr).roll = 0.65 * s.roll + 0.35 * rr ∧
    min s.yaw ry ≤ (s.update ry rp rr).yaw ∧ (s.update ry rp rr).yaw ≤ max s.yaw ry ∧
    min s.pitch rp ≤ (s.update ry rp rr).pitch ∧ (s.update ry rp rr).pitch ≤ max s.pitch rp ∧
    min s.roll rr ≤ (s.update ry rp rr).roll ∧ (s.update ry rp rr).roll ≤ max s.roll rr := by
  have hy := convex_mix_bounds s.yaw ry
  have hp := convex_mix_bounds s.pitch rp
  have hr := convex_mix_bounds s.roll rr
  simp only [SmoothedState.update, smoothing_mix]
  exact ⟨trivial, trivial, trivial, hy.1, hy.2, hp.1, hp.2, hr.1, hr.2⟩

/-- Claim C3: the gain computed by `SpatialState::from_head_tracking` is
`clamp(1/radius, 0.1, 2.0)` exactly; radius 1.0 gives gain 1.0, radius 5.0
gives 0.2, radius 0.05 clamps to 2.0, radius 20 clamps to 0.1. -/
theorem gain_clamped_inverse_radius (yaw pitch radius width : ℚ)
    (mode : SpeakerMode) (re : Bool) :
    (SpatialState.from_head_tracking yaw pitch radius mode re width).gain
        = clamp (1 / radius) 0.1 2.0 ∧
    (SpatialState.from_head_tracking yaw pitch 1.0 mode re width).gain = 1.0 ∧
    (SpatialState.from_head_tracking yaw pitch 5.0 mode re width).gain = 0.2 ∧
    (SpatialState.from_head_tracking yaw pitch 0.05 mode re width).gain = 2.0 ∧
    (SpatialState.from_head_tracking yaw pitch 20 mode re width).gain = 0.1 := by
  refine ⟨rfl, ?_, ?_, ?_, ?_⟩ <;>
    norm_num [SpatialState.from_head_tracking, clamp]

/-- Claim C5: each side's azimuth is `base_angle·width − yaw`, the
elevation is `−pitch`, and the mode-to-angle-pair indexing is crossed:
`Front` selects the back-layout constants (135, −135) and `Back` selects
the front-layout constants (45, −45). -/
theorem azimuth_elevation_mode_indexing (yaw pitch radius width : ℚ)
    (mode : SpeakerMode) (re : Bool) :
    (SpatialState.from_head_tracking yaw pitch radius mode re width).left_az
        = (mode.base_angles).1 * width - yaw ∧
    (SpatialState.from_head_tracking yaw pitch radius mode re width).right_az
        = (mode.base_angles).2 * width - yaw ∧
    (SpatialState.from_head_tracking yaw pitch radius mode re width).elevation
        = -pitch ∧
    SpeakerMode.base_angles .Front = (135.0, -135.0) ∧
    SpeakerMode.base_angles .Back = (45.0, -45.0) := by
  refine ⟨rfl, rfl, rfl, ?_, ?_⟩ <;>
    norm_num [SpeakerMode.base_angles, BACK_LEFT_ANGLE, BACK_RIGHT_ANGLE,
      FRONT_LEFT_ANGLE, FRONT_RIGHT_ANGLE]

/-- Claim C4: reverb disabled gives wet gain exactly 0; enabled gives
`MIN_REVERB + sqrt(clamp((radius − MIN_RADIUS)/(MAX_RADIUS − MIN_RADIUS), 0, 1))
· (MAX_REVERB − MIN_REVERB)`, which is 0.05 at radius 0.1, 0.60 at radius
10.0, and 0.325 at radius 2.575 (the quarter point of the normalized range,
on the square-root curve rather than the chord, whose value there would be
0.1875). -/
theorem reverb_gain_curve (yaw pitch radius width : ℚ) (mode : SpeakerMode) :
    (SpatialState.from_head_tracking yaw pitch radius mode false width).reverb_gain = 0 ∧
    (SpatialState.from_head_tracking yaw pitch radius mode true width).reverb_gain
        = (MIN_REVERB : ℝ)
          + Real.sqrt ((clamp ((radius - MIN_RADIUS) / (MAX_RADIUS - MIN_RADIUS)) 0.0 1.0 : ℚ) : ℝ)
            * ((MAX_REVERB : ℝ) - (MIN_REVERB : ℝ)) ∧
    (SpatialState.from_head_tracking yaw pitch 0.1 mode true width).reverb_gain = 0.05 ∧
    (SpatialState.from_head_tracking yaw pitch 10.0 mode true width).reverb_gain = 0.60 ∧
    (SpatialState.from_head_tracking yaw pitch 2.575 mode true width).reverb_gain = 0.325 := by
  refine ⟨by norm_num [SpatialState.from_head_tracking], rfl, ?_, ?_, ?_⟩
  · norm_num [SpatialState.from_head_tracking, clamp, MIN_RADIUS, MAX_RADIUS,
      MIN_REVERB, MAX_REVERB, Real.sqrt_zero]
  · norm_num [SpatialState.from_head_tracking, clamp, MIN_RADIUS, MAX_RADIUS,
      MIN_REVERB, MAX_REVERB, Real.sqrt_one]
  · norm_num [SpatialState.from_head_tracking, clamp, MIN_RADIUS, MAX_RADIUS,
      MIN_REVERB, MAX_REVERB]
    rw [show (4:ℝ) = 2 ^ 2 by norm_num, Real.sqrt_sq (by norm_num : (0:ℝ) ≤ 2)]
    norm_num

/-- Claim C1: the change gate fires iff the forced flag is set or one of
the three deltas strictly exceeds its threshold; a delta exactly at the
threshold does not fire, and the forced flag always fires. -/
theorem change_gate_iff (y p r ly lp lr : ℚ) (f : Bool) :
    (should_dispatch y p r ly lp lr f = true ↔
      f = true ∨ |y - ly| > 0.5 ∨ |p - lp| > 0.5 ∨ |r - lr| > 0.01) ∧
    (|y - ly| = 0.5 → |p - lp| ≤ 0.5 → |r - lr| ≤ 0.01 →
      should_dispatch y p r ly lp lr false = false) ∧
    should_dispatch y p r ly lp lr true = true := by
  refine ⟨?_, ?_, ?_⟩
  · simp only [should_dispatch, CHANGE_THRESHOLD, Bool.or_eq_true, decide_eq_true_eq]
    tauto
  · intro h1 h2 h3
    simp only [should_dispatch, CHANGE_THRESHOLD, Bool.or_eq_false_iff,
      decide_eq_false_iff_not, not_lt]
    refine ⟨⟨⟨le_of_eq h1, h2⟩, h3⟩, trivial⟩
  · simp [should_dispatch]

/-- Witness for `change_gate_iff`: a yaw delta of exactly 0.5 with the
other deltas inside their thresholds does not fire; a forced gate fires. -/
theorem change_gate_iff_witness :
    should_dispatch 0.5 0 1 0 0 1 false = false ∧
    should_dispatch 0 0 1 0 0 1 true = true :=
  ⟨(change_gate_iff 0.5 0 1 0 0 1 false).2.1 (by norm_num) (by norm_num) (by norm_num),
   (change_gate_iff 0 0 1 0 0 1 true).2.2⟩

/-- Any single key event keeps radius in `[MIN_RADIUS, MAX_RADIUS]` and
width in `[MIN_WIDTH, MAX_WIDTH]`. -/
lemma handle_key_event_bounds (k : KeyCode) (st : Settings)
    (hr1 : MIN_RADIUS ≤ st.radius) (hr2 : st.radius ≤ MAX_RADIUS)
    (hw1 : MIN_WIDTH ≤ st.width) (hw2 : st.width ≤ MAX_WIDTH) :
    MIN_RADIUS ≤ (handle_key_event k st).1.radius ∧
    (handle_key_event k st).1.radius ≤ MAX_RADIUS ∧
    MIN_WIDTH ≤ (handle_key_event k st).1.width ∧
    (handle_key_event k st).1.width ≤ MAX_WIDTH := by
  norm_num [MIN_RADIUS, MAX_RADIUS, MIN_WIDTH, MAX_WIDTH] at hr1 hr2 hw1 hw2
  cases k <;>
    simp only [handle_key_event] <;>
    try split
  all_goals
    refine ⟨?_, ?_, ?_, ?_⟩ <;>
      norm_num [MIN_RADIUS, MAX_RADIUS, MIN_WIDTH, MAX_WIDTH, RADIUS_STEP, WIDTH_STEP,
        le_min_iff, min_le_iff, le_max_iff, max_le_iff] <;>
      linarith

/-- Folding any finite key sequence preserves the settings bounds. -/
lemma apply_key_events_bounds : ∀ (keys : List KeyCode) (st : Settings),
    MIN_RADIUS ≤ st.radius → st.radius ≤ MAX_RADIUS →
    MIN_WIDTH ≤ st.width → st.width ≤ MAX_WIDTH →
    MIN_RADIUS ≤ (apply_key_events st keys).radius ∧
    (apply_key_events st keys).radius ≤ MAX_RADIUS ∧
    MIN_WIDTH ≤ (apply_key_events st keys).width ∧
    (apply_key_events st keys).width ≤ MAX_WIDTH
  | [], _, hr1, hr2, hw1, hw2 => ⟨hr1, hr2, hw1, hw2⟩
  | k :: ks, st, hr1, hr2, hw1, hw2 => by
    have hb := handle_key_event_bounds k st hr1 hr2 hw1 hw2
    exact apply_key_events_bounds ks (handle_key_event k st).1
      hb.1 hb.2.1 hb.2.2.1 hb.2.2.2

/-- Claim C7: starting from the defaults, every finite key sequence keeps
`0.1 ≤ radius ≤ 10.0` and `0.3 ≤ width ≤ 1.5`; each arrow key moves its
value by one 0.1 step clamped to the nearest bound, and a value at a bound
never wraps to the other end (up/right never decrease, down/left never
increase). -/
theorem settings_clamped (keys : List KeyCode) :
    (MIN_RADIUS ≤ (apply_key_events default_settings keys).radius ∧
     (apply_key_events default_settings keys).radius ≤ MAX_RADIUS ∧
     MIN_WIDTH ≤ (apply_key_events default_settings keys).width ∧
     (apply_key_events default_settings keys).width ≤ MAX_WIDTH) ∧
    (∀ st : Settings,
      (handle_key_event .Up st).1.radius = min (st.radius + RADIUS_STEP) MAX_RADIUS ∧
      (handle_key_event .Down st).1.radius = max (st.radius - RADIUS_STEP) MIN_RADIUS ∧
      (handle_key_event .Right st).1.width = min (st.width + WIDTH_STEP) MAX_WIDTH ∧
      (handle_key_event .Left st).1.width = max (st.width - WIDTH_STEP) MIN_WIDTH) ∧
    (∀ st : Settings, st.radius ≤ MAX_RADIUS →
      st.radius ≤ (handle_key_event .Up st).1.radius) ∧
    (∀ st : Settings, MIN_RADIUS ≤ st.radius →
      (handle_key_event .Down st).1.radius ≤ st.radius) ∧
    (∀ st : Settings, st.width ≤ MAX_WIDTH →
      st.width ≤ (handle_key_event .Right st).1.width) ∧
    (∀ st : Settings, MIN_WIDTH ≤ st.width →
      (handle_key_event .Left st).1.width ≤ st.width) := by
  refine ⟨?_, fun st => ⟨rfl, rfl, rfl, rfl⟩, ?_, ?_, ?_, ?_⟩
  · exact apply_key_events_bounds keys default_settings
      (by norm_num [default_settings, DEFAULT_RADIUS, MIN_RADIUS])
      (by norm_num [default_settings, DEFAULT_RADIUS, MAX_RADIUS])
      (by norm_num [default_settings, DEFAULT_WIDTH, MIN_WIDTH])
      (by norm_num [default_settings, DEFAULT_WIDTH, MAX_WIDTH])
  · intro st h
    simp only [handle_key_event, le_min_iff, RADIUS_STEP]
    exact ⟨by linarith, h⟩
  · intro st h
    simp only [handle_key_event, max_le_iff, RADIUS_STEP]
    exact ⟨by linarith, h⟩
  · intro st h
    simp only [handle_key_event, le_min_iff, WIDTH_STEP]
    exact ⟨by linarith, h⟩
  · intro st h
    simp only [handle_key_event, max_le_iff, WIDTH_STEP]
    exact ⟨by linarith, h⟩

/-- Witness for `settings_clamped`: a concrete key sequence (nine radius
increments from the default 1.5) stays in bounds, and each no-wrap part
holds at the default settings. -/
theorem settings_clamped_witness :
    (MIN_RADIUS ≤ (apply_key_events default_settings
        [KeyCode.Up, KeyCode.Up, KeyCode.Down, KeyCode.Left, KeyCode.Right]).radius ∧
     (apply_key_events default_settings
        [KeyCode.Up, KeyCode.Up, KeyCode.Down, KeyCode.Left, KeyCode.Right]).radius ≤ MAX_RADIUS ∧
     MIN_WIDTH ≤ (apply_key_events default_settings
        [KeyCode.Up, KeyCode.Up, KeyCode.Down, KeyCode.Left, KeyCode.Right]).width ∧
     (apply_key_events default_settings
        [KeyCode.Up, KeyCode.Up, KeyCode.Down, KeyCode.Left, KeyCode.Right]).width ≤ MAX_WIDTH) ∧
    default_settings.radius ≤ (handle_key_event .Up default_settings).1.radius ∧
    (handle_key_event .Down default_settings).1.radius ≤ default_settings.radius ∧
    default_settings.width ≤ (handle_key_event .Right default_settings).1.width ∧
    (handle_key_event .Left default_settings).1.width ≤ default_settings.width :=
  ⟨(settings_clamped [KeyCode.Up, KeyCode.Up, KeyCode.Down, KeyCode.Left, KeyCode.Right]).1,
   (settings_clamped []).2.2.1 default_settings
     (by norm_num [default_settings, DEFAULT_RADIUS, MAX_RADIUS]),
   (settings_clamped []).2.2.2.1 default_settings
     (by norm_num [default_settings, DEFAULT_RADIUS, MIN_RADIUS]),
   (settings_clamped []).2.2.2.2.1 default_settings
     (by norm_num [default_settings, DEFAULT_WIDTH, MAX_WIDTH]),
   (settings_clamped []).2.2.2.2.2 default_settings
     (by norm_num [default_settings, DEFAULT_WIDTH, MIN_WIDTH])⟩

/-- The keyboard stage only touches the settings and the force flag. -/
lemma key_stage_shape (s : LoopState) (key : Option KeyCode) :
    ∃ st f, (key_stage s key).1 = { s with settings := st, force_update := f } := by
  unfold key_stage
  cases key with
  | none => exact ⟨s.settings, s.force_update, rfl⟩
  | some k =>
    rcases h : handle_key_event k s.settings with ⟨st, act⟩
    cases act with
    | Quit => exact ⟨s.settings, s.force_update, by simp [h]⟩
    | Changed => exact ⟨st, true, by simp [h]⟩
    | None => exact ⟨st, s.force_update, by simp [h]⟩

/-- The discovery stage only touches the endpoint cache and its timestamp. -/
lemma discovery_stage_shape (s : LoopState) (now : ℕ) (found : Option ℕ) :
    ∃ c l, (discovery_stage s now found).1
      = { s with cached_node_id := c, last_node_search := l } := by
  unfold discovery_stage
  split
  · exact ⟨found, now, rfl⟩
  · exact ⟨s.cached_node_id, s.last_node_search, rfl⟩

/-- The dispatch stage only touches the dispatch memory. -/
lemma dispatch_stage_shape (s : LoopState) :
    ∃ a b c, (dispatch_stage s).1
      = { s with last_sent_yaw := a, last_sent_pitch := b, last_sent_radius := c } := by
  unfold dispatch_stage
  split
  · split
    · exact ⟨s.smoothed.yaw, s.smoothed.pitch, s.settings.radius, rfl⟩
    · exact ⟨s.last_sent_yaw, s.last_sent_pitch, s.last_sent_radius, rfl⟩
  · exact ⟨s.last_sent_yaw, s.last_sent_pitch, s.last_sent_radius, rfl⟩

/-- On a positive gate decision the dispatch stage writes exactly the
just-used yaw/pitch/radius into the memory; on a negative one it changes
nothing at all. -/
lemma dispatch_stage_spec (s : LoopState) :
    ((dispatch_stage s).2 = true →
      (dispatch_stage s).1.last_sent_yaw = s.smoothed.yaw ∧
      (dispatch_stage s).1.last_sent_pitch = s.smoothed.pitch ∧
      (dispatch_stage s).1.last_sent_radius = s.settings.radius) ∧
    ((dispatch_stage s).2 = false → (dispatch_stage s).1 = s) := by
  unfold dispatch_stage
  split
  · split <;> simp
  · simp

/-- `packet_stage` on a mis-sized packet is a no-op. -/
lemma packet_stage_badSize (s : LoopState) (now : ℕ) :
    packet_stage s now .badSize = (s, false, false) := rfl

/-- `packet_stage` on a timeout is a no-op. -/
lemma packet_stage_timeout (s : LoopState) (now : ℕ) :
    packet_stage s now .timeout = (s, false, false) := rfl

/-- Unfolding equation of `packet_stage` on a valid packet. -/
lemma packet_stage_valid (s : LoopState) (now : ℕ) (x y z ry rp rr : ℚ) :
    packet_stage s now (.valid x y z ry rp rr) =
      if now - s.last_update_time < UPDATE_RATE_MS ∧ s.force_update = false then
        ({ s with packet_count := s.packet_count + 1,
                  smoothed := s.smoothed.update ry rp rr }, false, false)
      else
        ({ (dispatch_stage { s with packet_count := s.packet_count + 1, smoothed := s.smoothed.update ry rp rr }).1 with force_update := false, last_update_time := now }, true, (dispatch_stage { s with packet_count := s.packet_count + 1, smoothed := s.smoothed.update ry rp rr }).2) := rfl

/-- Unfolding equation of `tick`. -/
lemma tick_eq (s : LoopState) (inp : TickInput) :
    tick s inp =
      if (key_stage s inp.key).2 then
        ⟨(key_stage s inp.key).1, true, false, false, false⟩
      else
        ⟨(packet_stage (discovery_stage (key_stage s inp.key).1 inp.now inp.found).1
            inp.now inp.packet).1, false,
         (discovery_stage (key_stage s inp.key).1 inp.now inp.found).2,
         (packet_stage (discovery_stage (key_stage s inp.key).1 inp.now inp.found).1
            inp.now inp.packet).2.1,
         (packet_stage (discovery_stage (key_stage s inp.key).1 inp.now inp.found).1
            inp.now inp.packet).2.2⟩ := rfl

/-- The keyboard stage leaves every field except settings/force unchanged. -/
lemma key_stage_fields (s : LoopState) (key : Option KeyCode) :
    (key_stage s key).1.smoothed = s.smoothed ∧
    (key_stage s key).1.cached_node_id = s.cached_node_id ∧
    (key_stage s key).1.last_node_search = s.last_node_search ∧
    (key_stage s key).1.last_update_time = s.last_update_time ∧
    (key_stage s key).1.packet_count = s.packet_count ∧
    (key_stage s key).1.last_sent_yaw = s.last_sent_yaw ∧
    (key_stage s key).1.last_sent_pitch = s.last_sent_pitch ∧
    (key_stage s key).1.last_sent_radius = s.last_sent_radius := by
  obtain ⟨st, f, h⟩ := key_stage_shape s key
  rw [h]
  simp

@[simp] lemma key_stage_fst_smoothed (s : LoopState) (key : Option KeyCode) :
    (key_stage s key).1.smoothed = s.smoothed := (key_stage_fields s key).1

@[simp] lemma key_stage_fst_cached (s : LoopState) (key : Option KeyCode) :
    (key_stage s key).1.cached_node_id = s.cached_node_id := (key_stage_fields s key).2.1

@[simp] lemma key_stage_fst_search (s : LoopState) (key : Option KeyCode) :
    (key_stage s key).1.last_node_search = s.last_node_search := (key_stage_fields s key).2.2.1

@[simp] lemma key_stage_fst_update_time (s : LoopState) (key : Option KeyCode) :
    (key_stage s key).1.last_update_time = s.last_update_time := (key_stage_fields s key).2.2.2.1

@[simp] lemma key_stage_fst_packets (s : LoopState) (key : Option KeyCode) :
    (key_stage s key).1.packet_count = s.packet_count := (key_stage_fields s key).2.2.2.2.1

@[simp] lemma key_stage_fst_sent_yaw (s : LoopState) (key : Option KeyCode) :
    (key_stage s key).1.last_sent_yaw = s.last_sent_yaw := (key_stage_fields s key).2.2.2.2.2.1

@[simp] lemma key_stage_fst_sent_pitch (s : LoopState) (key : Option KeyCode) :
    (key_stage s key).1.last_sent_pitch = s.last_sent_pitch :=
  (key_stage_fields s key).2.2.2.2.2.2.1

@[simp] lemma key_stage_fst_sent_radius (s : LoopState) (key : Option KeyCode) :
    (key_stage s key).1.last_sent_radius = s.last_sent_radius :=
  (key_stage_fields s key).2.2.2.2.2.2.2

/-- The discovery stage leaves everything but the cache fields unchanged. -/
lemma discovery_stage_fields (s : LoopState) (now : ℕ) (found : Option ℕ) :
    (discovery_stage s now found).1.smoothed = s.smoothed ∧
    (discovery_stage s now found).1.last_update_time = s.last_update_time ∧
    (discovery_stage s now found).1.packet_count = s.packet_count ∧
    (discovery_stage s now found).1.last_sent_yaw = s.last_sent_yaw ∧
    (discovery_stage s now found).1.last_sent_pitch = s.last_sent_pitch ∧
    (discovery_stage s now found).1.last_sent_radius = s.last_sent_radius ∧
    (discovery_stage s now found).1.settings = s.settings ∧
    (discovery_stage s now found).1.force_update = s.force_update := by
  obtain ⟨c, l, h⟩ := discovery_stage_shape s now found
  rw [h]
  simp

@[simp] lemma discovery_stage_fst_smoothed (s : LoopState) (now : ℕ) (found : Option ℕ) :
    (discovery_stage s now found).1.smoothed = s.smoothed :=
  (discovery_stage_fields s now found).1

@[simp] lemma discovery_stage_fst_update_time (s : LoopState) (now : ℕ) (found : Option ℕ) :
    (discovery_stage s now found).1.last_update_time = s.last_update_time :=
  (discovery_stage_fields s now found).2.1

@[simp] lemma discovery_stage_fst_packets (s : LoopState) (now : ℕ) (found : Option ℕ) :
    (discovery_stage s now found).1.packet_count = s.packet_count :=
  (discovery_stage_fields s now found).2.2.1

@[simp] lemma discovery_stage_fst_sent_yaw (s : LoopState) (now : ℕ) (found : Option ℕ) :
    (discovery_stage s now found).1.last_sent_yaw = s.last_sent_yaw :=
  (discovery_stage_fields s now found).2.2.2.1

@[simp] lemma discovery_stage_fst_sent_pitch (s : LoopState) (now : ℕ) (found : Option ℕ) :
    (discovery_stage s now found).1.last_sent_pitch = s.last_sent_pitch :=
  (discovery_stage_fields s now found).2.2.2.2.1

@[simp] lemma discovery_stage_fst_sent_radius (s : LoopState) (now : ℕ) (found : Option ℕ) :
    (discovery_stage s now found).1.last_sent_radius = s.last_sent_radius :=
  (discovery_stage_fields s now found).2.2.2.2.2.1

@[simp] lemma discovery_stage_fst_settings (s : LoopState) (now : ℕ) (found : Option ℕ) :
    (discovery_stage s now found).1.settings = s.settings :=
  (discovery_stage_fields s now found).2.2.2.2.2.2.1

@[simp] lemma discovery_stage_fst_force (s : LoopState) (now : ℕ) (found : Option ℕ) :
    (discovery_stage s now found).1.force_update = s.force_update :=
  (discovery_stage_fields s now found).2.2.2.2.2.2.2

/-- The dispatch stage leaves everything but the dispatch memory unchanged. -/
lemma dispatch_stage_fields (s : LoopState) :
    (dispatch_stage s).1.smoothed = s.smoothed ∧
    (dispatch_stage s).1.settings = s.settings ∧
    (dispatch_stage s).1.cached_node_id = s.cached_node_id ∧
    (dispatch_stage s).1.last_node_search = s.last_node_search ∧
    (dispatch_stage s).1.last_update_time = s.last_update_time ∧
    (dispatch_stage s).1.packet_count = s.packet_count ∧
    (dispatch_stage s).1.force_update = s.force_update := by
  obtain ⟨a, b, c, h⟩ := dispatch_stage_shape s
  rw [h]
  simp

@[simp] lemma dispatch_stage_fst_smoothed (s : LoopState) :
    (dispatch_stage s).1.smoothed = s.smoothed := (dispatch_stage_fields s).1

@[simp] lemma dispatch_stage_fst_settings (s : LoopState) :
    (dispatch_stage s).1.settings = s.settings := (dispatch_stage_fields s).2.1

@[simp] lemma dispatch_stage_fst_cached (s : LoopState) :
    (dispatch_stage s).1.cached_node_id = s.cached_node_id := (dispatch_stage_fields s).2.2.1

@[simp] lemma dispatch_stage_fst_search (s : LoopState) :
    (dispatch_stage s).1.last_node_search = s.last_node_search :=
  (dispatch_stage_fields s).2.2.2.1

@[simp] lemma dispatch_stage_fst_update_time (s : LoopState) :
    (dispatch_stage s).1.last_update_time = s.last_update_time :=
  (dispatch_stage_fields s).2.2.2.2.1

@[simp] lemma dispatch_stage_fst_packets (s : LoopState) :
    (dispatch_stage s).1.packet_count = s.packet_count := (dispatch_stage_fields s).2.2.2.2.2.1

@[simp] lemma dispatch_stage_fst_force (s : LoopState) :
    (dispatch_stage s).1.force_update = s.force_update := (dispatch_stage_fields s).2.2.2.2.2.2

/-- On a positive gate decision the memory receives the just-used values. -/
lemma dispatch_stage_true_mem (s : LoopState) (h : (dispatch_stage s).2 = true) :
    (dispatch_stage s).1.last_sent_yaw = s.smoothed.yaw ∧
    (dispatch_stage s).1.last_sent_pitch = s.smoothed.pitch ∧
    (dispatch_stage s).1.last_sent_radius = s.settings.radius :=
  (dispatch_stage_spec s).1 h

/-- On a negative gate decision the dispatch stage is the identity. -/
lemma dispatch_stage_false_id (s : LoopState) (h : (dispatch_stage s).2 = false) :
    (dispatch_stage s).1 = s :=
  (dispatch_stage_spec s).2 h

/-- Claim C9: whenever `update_pipewire` is called, the dispatch memory
afterwards holds exactly the smoothed yaw, smoothed pitch and current
radius that were just used; whenever it is not called (in particular on a
negative gate decision), all three memory fields are unchanged. -/
theorem dispatch_memory_effect (s : LoopState) (inp : TickInput) :
    ((tick s inp).dispatched = true →
      (tick s inp).state.last_sent_yaw = (tick s inp).state.smoothed.yaw ∧
      (tick s inp).state.last_sent_pitch = (tick s inp).state.smoothed.pitch ∧
      (tick s inp).state.last_sent_radius = (tick s inp).state.settings.radius) ∧
    ((tick s inp).dispatched = false →
      (tick s inp).state.last_sent_yaw = s.last_sent_yaw ∧
      (tick s inp).state.last_sent_pitch = s.last_sent_pitch ∧
      (tick s inp).state.last_sent_radius = s.last_sent_radius) := by
  rw [tick_eq]
  split
  · simp
  · rcases inp.packet with ⟨x, y, z, ry, rp, rr⟩ | _ | _
    · rw [packet_stage_valid]
      split
      · simp
      · constructor
        · intro hd
          have h3 := dispatch_stage_true_mem _ hd
          simp at h3 ⊢
          exact h3
        · intro hd
          have h3 := dispatch_stage_false_id _ hd
          simp at h3
          simp [h3]
    · rw [packet_stage_badSize]
      simp
    · rw [packet_stage_timeout]
      simp

/-- Witness for `dispatch_memory_effect`: a tick that dispatches (cached
endpoint, elapsed interval, sentinel memory) writes the just-used values;
a rate-limited tick leaves the memory alone. -/
theorem dispatch_memory_effect_witness :
    ((tick { initial_state 0 with cached_node_id := some 7 }
        ⟨none, 25, none, .valid 0 0 0 1 2 3⟩).state.last_sent_yaw
      = (tick { initial_state 0 with cached_node_id := some 7 }
          ⟨none, 25, none, .valid 0 0 0 1 2 3⟩).state.smoothed.yaw ∧
     (tick { initial_state 0 with cached_node_id := some 7 }
        ⟨none, 25, none, .valid 0 0 0 1 2 3⟩).state.last_sent_pitch
      = (tick { initial_state 0 with cached_node_id := some 7 }
          ⟨none, 25, none, .valid 0 0 0 1 2 3⟩).state.smoothed.pitch ∧
     (tick { initial_state 0 with cached_node_id := some 7 }
        ⟨none, 25, none, .valid 0 0 0 1 2 3⟩).state.last_sent_radius
      = (tick { initial_state 0 with cached_node_id := some 7 }
          ⟨none, 25, none, .valid 0 0 0 1 2 3⟩).state.settings.radius) ∧
    ((tick { initial_state 0 with cached_node_id := some 7 }
        ⟨none, 5, none, .valid 0 0 0 1 2 3⟩).state.last_sent_yaw
      = { initial_state 0 with cached_node_id := some 7 }.last_sent_yaw ∧
     (tick { initial_state 0 with cached_node_id := some 7 }
        ⟨none, 5, none, .valid 0 0 0 1 2 3⟩).state.last_sent_pitch
      = { initial_state 0 with cached_node_id := some 7 }.last_sent_pitch ∧
     (tick { initial_state 0 with cached_node_id := some 7 }
        ⟨none, 5, none, .valid 0 0 0 1 2 3⟩).state.last_sent_radius
      = { initial_state 0 with cached_node_id := some 7 }.last_sent_radius) :=
  ⟨(dispatch_memory_effect { initial_state 0 with cached_node_id := some 7 }
      ⟨none, 25, none, .valid 0 0 0 1 2 3⟩).1
      (by norm_num [tick, key_stage, discovery_stage, packet_stage, dispatch_stage,
        initial_state, UPDATE_RATE_MS, should_dispatch, f64_MAX, CHANGE_THRESHOLD,
        SmoothedState.update, SmoothedState.new, SMOOTHING_FACTOR, default_settings,
        DEFAULT_RADIUS, abs_of_nonneg]),
   (dispatch_memory_effect { initial_state 0 with cached_node_id := some 7 }
      ⟨none, 5, none, .valid 0 0 0 1 2 3⟩).2
      (by norm_num [tick, key_stage, discovery_stage, packet_stage, dispatch_stage,
        initial_state, UPDATE_RATE_MS, should_dispatch, f64_MAX, CHANGE_THRESHOLD,
        SmoothedState.update, SmoothedState.new, SMOOTHING_FACTOR, default_settings,
        DEFAULT_RADIUS, abs_of_nonneg])⟩

/-- A keyless tick never quits, keeps the force flag cleared, runs the
downstream work only when the full update interval has elapsed (resetting
`last_update_time` to the tick's instant), and otherwise leaves
`last_update_time` alone. -/
lemma tick_keyless_eq (s : LoopState) (now : ℕ) (found : Option ℕ) (pkt : PacketIn) :
    tick s ⟨none, now, found, pkt⟩ =
      ⟨(packet_stage (discovery_stage s now found).1 now pkt).1, false,
       (discovery_stage s now found).2,
       (packet_stage (discovery_stage s now found).1 now pkt).2.1,
       (packet_stage (discovery_stage s now found).1 now pkt).2.2⟩ := rfl

lemma tick_keyless_spec (s : LoopState) (inp : TickInput) (hk : inp.key = none)
    (hf : s.force_update = false) :
    (tick s inp).quit = false ∧
    (tick s inp).state.force_update = false ∧
    ((tick s inp).evaluated = true →
      s.last_update_time + UPDATE_RATE_MS ≤ inp.now ∧
      (tick s inp).state.last_update_time = inp.now) ∧
    ((tick s inp).evaluated = false →
      (tick s inp).state.last_update_time = s.last_update_time) := by
  obtain ⟨key, now, found, pkt⟩ := inp
  simp only at hk
  subst hk
  rw [tick_keyless_eq]
  rcases pkt with ⟨x, y, z, ry, rp, rr⟩ | _ | _
  · simp only [packet_stage_valid]
    split
    · simp [hf]
    · rename_i hcond
      simp [hf] at hcond
      refine ⟨by simp, by simp, fun _ => ⟨?_, by simp⟩, by simp⟩
      simp only [UPDATE_RATE_MS] at hcond ⊢
      omega
  · simp [packet_stage_badSize, hf]
  · simp [packet_stage_timeout, hf]

/-- Along a trace with no keyboard input and no pending force flag, the
instants at which the downstream work runs are pairwise at least
`UPDATE_RATE_MS` apart (and the first one is at least that far from the
initial `last_update_time`). -/
lemma eval_times_chain (inps : List TickInput) : ∀ (s : LoopState),
    (∀ i ∈ inps, i.key = none) → s.force_update = false →
    List.Chain (fun a b => a + UPDATE_RATE_MS ≤ b) s.last_update_time (eval_times s inps) := by
  induction inps with
  | nil => intro s _ _; exact List.Chain.nil
  | cons inp rest ih =>
    intro s hk hf
    have h1 : inp.key = none := hk inp (List.mem_cons_self _ _)
    have hrest : ∀ i ∈ rest, i.key = none := fun i hi => hk i (List.mem_cons_of_mem _ hi)
    have hspec := tick_keyless_spec s inp h1 hf
    simp only [eval_times, hspec.1, if_false, Bool.false_eq_true]
    cases he : (tick s inp).evaluated with
    | true =>
      simp only [if_true]
      refine List.Chain.cons (hspec.2.2.1 he).1 ?_
      have hc := ih (tick s inp).state hrest hspec.2.1
      rwa [(hspec.2.2.1 he).2] at hc
    | false =>
      simp only [Bool.false_eq_true, if_false]
      have hc := ih (tick s inp).state hrest hspec.2.1
      rwa [hspec.2.2.2 he] at hc

/-- Claim C6: on a valid packet the smoothing filter is always updated;
if less than `UPDATE_RATE_MS` has elapsed since the last processed tick and
no force flag is pending, everything downstream is skipped (no evaluation,
no dispatch, memory and pacing clock untouched); and along any keyless
force-free trace the downstream evaluations are at least one full interval
apart, whatever the packet arrival rate. -/
theorem rate_limited (s : LoopState) (inp : TickInput) (x y z ry rp rr : ℚ)
    (inps : List TickInput) :
    (inp.key = none → inp.packet = .valid x y z ry rp rr →
      (tick s inp).state.smoothed = s.smoothed.update ry rp rr) ∧
    (inp.key = none → inp.packet = .valid x y z ry rp rr →
      s.force_update = false → inp.now - s.last_update_time < UPDATE_RATE_MS →
      (tick s inp).evaluated = false ∧ (tick s inp).dispatched = false ∧
      (tick s inp).state.last_update_time = s.last_update_time ∧
      (tick s inp).state.last_sent_yaw = s.last_sent_yaw ∧
      (tick s inp).state.last_sent_pitch = s.last_sent_pitch ∧
      (tick s inp).state.last_sent_radius = s.last_sent_radius) ∧
    ((∀ i ∈ inps, i.key = none) → s.force_update = false →
      List.Chain (fun a b => a + UPDATE_RATE_MS ≤ b) s.last_update_time (eval_times s inps)) := by
  refine ⟨?_, ?_, fun hk hf => eval_times_chain inps s hk hf⟩
  · intro hk hp
    obtain ⟨key, now, found, pkt⟩ := inp
    simp only at hk hp
    subst hk
    subst hp
    rw [tick_keyless_eq]
    simp only [packet_stage_valid]
    split <;> simp
  · intro hk hp hf hlt
    obtain ⟨key, now, found, pkt⟩ := inp
    simp only at hk hp hlt
    subst hk
    subst hp
    rw [tick_keyless_eq]
    simp only [packet_stage_valid]
    rw [if_pos (by simp [hf, hlt])]
    simp

/-- Witness for `rate_limited`: a packet 5 ms after start is absorbed into
the filter but skipped downstream, and a keyless two-packet trace has its
evaluation instants spaced by at least the update interval. -/
theorem rate_limited_witness :
    (tick (initial_state 0) ⟨none, 5, none, .valid 0 0 0 1 2 3⟩).state.smoothed
        = (initial_state 0).smoothed.update 1 2 3 ∧
    (tick (initial_state 0) ⟨none, 5, none, .valid 0 0 0 1 2 3⟩).evaluated = false ∧
    (tick (initial_state 0) ⟨none, 5, none, .valid 0 0 0 1 2 3⟩).state.last_update_time
        = (initial_state 0).last_update_time ∧
    List.Chain (fun a b => a + UPDATE_RATE_MS ≤ b) (initial_state 0).last_update_time
      (eval_times (initial_state 0)
        [⟨none, 25, none, .valid 0 0 0 1 2 3⟩, ⟨none, 30, none, .valid 0 0 0 1 2 3⟩]) :=
  ⟨(rate_limited (initial_state 0) ⟨none, 5, none, .valid 0 0 0 1 2 3⟩ 0 0 0 1 2 3 []).1
      rfl rfl,
   ((rate_limited (initial_state 0) ⟨none, 5, none, .valid 0 0 0 1 2 3⟩ 0 0 0 1 2 3 []).2.1
      rfl rfl rfl (by decide)).1,
   ((rate_limited (initial_state 0) ⟨none, 5, none, .valid 0 0 0 1 2 3⟩ 0 0 0 1 2 3 []).2.1
      rfl rfl rfl (by decide)).2.2.1,
   (rate_limited (initial_state 0) ⟨none, 5, none, .valid 0 0 0 1 2 3⟩ 0 0 0 1 2 3
      [⟨none, 25, none, .valid 0 0 0 1 2 3⟩, ⟨none, 30, none, .valid 0 0 0 1 2 3⟩]).2.2
      (by decide) rfl⟩

/-- The discovery stage fires exactly under the source's condition:
nothing cached and more than two whole elapsed seconds. -/
lemma discovery_stage_snd (s : LoopState) (now : ℕ) (found : Option ℕ) :
    (discovery_stage s now found).2 = true ↔
      s.cached_node_id = none ∧ (now - s.last_node_search) / 1000 > 2 := by
  unfold discovery_stage
  split <;> simp_all

/-- A tick with a cached endpoint id keeps it and never searches. -/
lemma tick_preserves_cached (s : LoopState) (inp : TickInput) (id : ℕ)
    (h : s.cached_node_id = some id) :
    (tick s inp).state.cached_node_id = some id ∧ (tick s inp).searched = false := by
  rw [tick_eq]
  split
  · simp [h]
  · have hk1 : (key_stage s inp.key).1.cached_node_id = some id := by simp [h]
    have hd : discovery_stage (key_stage s inp.key).1 inp.now inp.found
        = ((key_stage s inp.key).1, false) := by
      unfold discovery_stage
      rw [if_neg]
      intro hc
      rw [hk1] at hc
      exact Option.some_ne_none id hc.1
    rw [hd]
    refine ⟨?_, rfl⟩
    rcases inp.packet with ⟨x, y, z, ry, rp, rr⟩ | _ | _
    · simp only [packet_stage_valid]
      split <;> simp [h]
    · simp [packet_stage_badSize, h]
    · simp [packet_stage_timeout, h]

/-- A cached endpoint id survives any whole input trace. -/
lemma run_ticks_preserves_cached (inps : List TickInput) : ∀ (s : LoopState) (id : ℕ),
    s.cached_node_id = some id → (run_ticks s inps).cached_node_id = some id := by
  induction inps with
  | nil => intro s id h; exact h
  | cons inp rest ih =>
    intro s id h
    have ht := tick_preserves_cached s inp id h
    simp only [run_ticks]
    split
    · exact ht.1
    · exact ih _ id ht.1

/-- Claim C8: `find_spatializer_node` is invoked only when no id is cached
and at least 2 seconds (in fact more than 2 whole seconds) have elapsed
since the previous attempt; once an id is cached it is never cleared and
discovery never runs again, over any remaining input trace. -/
theorem discovery_gated (s : LoopState) (inp : TickInput) (id : ℕ)
    (inps : List TickInput) :
    ((tick s inp).searched = true →
      s.cached_node_id = none ∧ 2000 ≤ inp.now - s.last_node_search) ∧
    (s.cached_node_id = some id →
      (tick s inp).searched = false ∧ (tick s inp).state.cached_node_id = some id) ∧
    (s.cached_node_id = some id → (run_ticks s inps).cached_node_id = some id) := by
  refine ⟨?_, fun h => ⟨(tick_preserves_cached s inp id h).2,
      (tick_preserves_cached s inp id h).1⟩,
    fun h => run_ticks_preserves_cached inps s id h⟩
  intro hs
  rw [tick_eq] at hs
  split at hs
  · exact absurd hs (by simp)
  · rw [discovery_stage_snd] at hs
    have h1 : s.cached_node_id = none := by
      have := hs.1
      simpa using this
    have h2 : (inp.now - s.last_node_search) / 1000 > 2 := by
      have := hs.2
      simpa using this
    exact ⟨h1, by omega⟩

/-- Witness for `discovery_gated`: a search that fires 3001 ms after start
satisfies the gating conditions, and a cached id 7 survives a tick and a
trace. -/
theorem discovery_gated_witness :
    ((initial_state 0).cached_node_id = none ∧
      2000 ≤ 3001 - (initial_state 0).last_node_search) ∧
    ((tick { initial_state 0 with cached_node_id := some 7 }
        ⟨none, 3001, some 9, .timeout⟩).searched = false ∧
     (tick { initial_state 0 with cached_node_id := some 7 }
        ⟨none, 3001, some 9, .timeout⟩).state.cached_node_id = some 7) ∧
    (run_ticks { initial_state 0 with cached_node_id := some 7 }
        [⟨none, 5000, some 9, .timeout⟩]).cached_node_id = some 7 :=
  ⟨(discovery_gated (initial_state 0) ⟨none, 3001, some 7, .timeout⟩ 0 []).1 (by decide),
   (discovery_gated { initial_state 0 with cached_node_id := some 7 }
      ⟨none, 3001, some 9, .timeout⟩ 7 []).2.1 rfl,
   (discovery_gated { initial_state 0 with cached_node_id := some 7 }
      ⟨none, 5000, some 9, .timeout⟩ 7 [⟨none, 5000, some 9, .timeout⟩]).2.2 rfl⟩

/-- Claim C10: the dispatch memory starts at the `f64::MAX` sentinel in all
three fields, and against that memory the change gate fires for every
yaw/pitch and every radius in `[MIN_RADIUS, MAX_RADIUS]` even with the
forced flag clear — so the first gate evaluation after an endpoint id is
cached always dispatches. -/
theorem first_gate_evaluation_dispatches (start : ℕ) (yaw pitch radius : ℚ)
    (h1 : MIN_RADIUS ≤ radius) (h2 : radius ≤ MAX_RADIUS) :
    (initial_state start).last_sent_yaw = f64_MAX ∧
    (initial_state start).last_sent_pitch = f64_MAX ∧
    (initial_state start).last_sent_radius = f64_MAX ∧
    should_dispatch yaw pitch radius f64_MAX f64_MAX f64_MAX false = true := by
  refine ⟨rfl, rfl, rfl, ?_⟩
  have hM : (1000 : ℚ) ≤ f64_MAX := by norm_num [f64_MAX]
  have hMR : MAX_RADIUS = 10 := by norm_num [MAX_RADIUS]
  have h2' : radius ≤ 10 := by linarith [h2, hMR.le, hMR.ge]
  have h3 : |radius - f64_MAX| > 0.01 := by
    rw [abs_sub_comm, abs_of_nonneg (by linarith : (0:ℚ) ≤ f64_MAX - radius)]
    linarith
  simp [should_dispatch, decide_eq_true_eq, h3]

/-- Witness for `first_gate_evaluation_dispatches`: at the default radius
1.5 the never-sent sentinel forces a dispatch with the forced flag clear. -/
theorem first_gate_evaluation_dispatches_witness :
    (initial_state 0).last_sent_yaw = f64_MAX ∧
    (initial_state 0).last_sent_pitch = f64_MAX ∧
    (initial_state 0).last_sent_radius = f64_MAX ∧
    should_dispatch 0 0 1.5 f64_MAX f64_MAX f64_MAX false = true :=
  first_gate_evaluation_dispatches 0 0 0 1.5
    (by norm_num [MIN_RADIUS]) (by norm_num [MAX_RADIUS])

end StereoPanner
